import Mathlib

/-!
Verification of the `agnostic-agents` core: a shallow embedding in Lean 4 of
`core/brain.py` (the retrying LLM completion caller and its response
normalization), `core/observability.py` (lazy telemetry client construction),
and `core/schema.py` (pydantic message models), together with theorems about
the claims of the specification.

Modelling conventions:
* Python `dict`/JSON values are modelled by the inductive `Val`; a mapping is
  an association list `List (String × Val)` with key semantics given by
  `List.lookup`.
* The remote gateway (`self.client.chat.completions.create`) and the JSON
  decoder (`json.loads`) are external libraries; they enter the model as
  oracles: `api : Nat → AttemptOutcome` gives the outcome of the i-th remote
  attempt, and `jsonLoads : String → Except String Val` gives the decoding
  outcome of an arguments string.
* Side effects (telemetry open/update/close, `time.sleep`) are recorded in an
  event trace; `Brain.complete` returns the trace together with the
  result-or-`BrainError`-message. Delays are rationals (the Python floats
  involved — `retry_delay * (attempt + 1)` for small attempt counts — are
  exact).
* `max_retries : Nat`: Python allows negative values, for which
  `range(max_retries)` is empty exactly as for `0`, so `0` models every
  non-positive value.
-/

set_option autoImplicit false

namespace AgnosticAgents

/-- A generic Python/JSON value, as produced by `json.loads` and stored in
`Dict[str, Any]` fields. -/
inductive Val where
  | vnone
  | vbool (b : Bool)
  | vint (n : Int)
  | vstr (s : String)
  | vtime (t : Nat)
  | vlist (xs : List Val)
  | vdict (kvs : List (String × Val))

/-- Token usage block of a gateway response (`response.usage`). -/
structure Usage where
  prompt_tokens : Nat
  completion_tokens : Nat
  total_tokens : Nat
deriving DecidableEq

/-- `tool_call.function`: a function name plus a JSON-encoded arguments
string. -/
structure FunctionCall where
  name : String
  arguments : String
deriving DecidableEq

/-- One wire-format tool invocation (`tool_call` entry of the response
message). -/
structure ToolCallWire where
  id : String
  function : FunctionCall
deriving DecidableEq

/-- `response.choices[i].message`. `content` is `None` or a string;
`tool_calls` is `None` or a list. -/
structure RespMessage where
  content : Option String
  tool_calls : Option (List ToolCallWire)
deriving DecidableEq

/-- One entry of `response.choices`. -/
structure Choice where
  message : RespMessage
deriving DecidableEq

/-- An OpenAI-format completion response, as consumed by
`Brain._parse_response`. -/
structure Response where
  choices : List Choice
  model : String
  usage : Usage
deriving DecidableEq

/-- The decode outcome of `json.loads` on an arguments string: the decoded
value, or the `JSONDecodeError` message. `json.loads` is library code, so the
decoder enters the model as an oracle. -/
abbrev JsonDecoder := String → Except String Val

/-- One parsed tool-call entry of the normalized result: `{id, name,
arguments}`, plus `error` when the arguments string failed to decode. -/
structure ParsedToolCall where
  id : String
  name : String
  arguments : Val
  error : Option String

/-- The normalized result of `Brain.complete` / `Brain._parse_response`:
`{content, tool_calls, model, usage}`. -/
structure CompletionResult where
  content : Option String
  tool_calls : Option (List ParsedToolCall)
  model : String
  usage : Usage

/-- The per-invocation body of the `for tool_call in message.tool_calls` loop
of `Brain._parse_response`: decode the arguments string; on
`json.JSONDecodeError` degrade to an empty mapping plus an error string. -/
def parseOneToolCall (jsonLoads : JsonDecoder) (tc : ToolCallWire) : ParsedToolCall :=
  match jsonLoads tc.function.arguments with
  | .ok v =>
      { id := tc.id, name := tc.function.name, arguments := v, error := none }
  | .error e =>
      { id := tc.id, name := tc.function.name, arguments := .vdict [],
        error := some ("Failed to parse arguments: " ++ e) }

/-- `Brain._parse_response`: normalize a gateway response. `choices[0]` on an
empty list raises `IndexError` (message `list index out of range`), which is
modelled as the error case; `if message.tool_calls:` is Python truthiness, so
both `None` and the empty list leave `tool_calls` as `None`. -/
def parse_response (jsonLoads : JsonDecoder) (response : Response) :
    Except String CompletionResult :=
  match response.choices.head? with
  | none => .error "list index out of range"
  | some choice =>
      let message := choice.message
      let base : CompletionResult :=
        { content := message.content
          tool_calls := none
          model := response.model
          usage := { prompt_tokens := response.usage.prompt_tokens
                     completion_tokens := response.usage.completion_tokens
                     total_tokens := response.usage.total_tokens } }
      match message.tool_calls with
      | none => .ok base
      | some tcs =>
          if tcs.isEmpty then .ok base
          else .ok { base with tool_calls := some (tcs.map (parseOneToolCall jsonLoads)) }

/-- Outcome of one remote attempt (`self.client.chat.completions.create`):
a response object, or a raised exception of one of the classes the caller
distinguishes (`openai.RateLimitError`, `openai.APIError`, anything else). -/
inductive AttemptOutcome where
  | success (response : Response)
  | rateLimitError (msg : String)
  | apiError (msg : String)
  | otherError (msg : String)

/-- The message of a transient (retried) outcome, `none` otherwise. -/
def AttemptOutcome.transientMsg : AttemptOutcome → Option String
  | .rateLimitError m => some m
  | .apiError m => some m
  | _ => none

/-- Observable side effects of `Brain.complete`, in order of occurrence. -/
inductive Event where
  | createGeneration
  | apiCall
  | sleep (seconds : ℚ)
  | updateGeneration
  | endGeneration
deriving DecidableEq

/-- `if track_generation and generation: observability.end_generation(...)`. -/
def endEvents (track : Bool) : List Event :=
  if track then [Event.endGeneration] else []

/-- Python `str(last_error)`: `str(None) = "None"`. -/
def strOfLastError : Option String → String
  | none => "None"
  | some m => m

/-- The `for attempt in range(self.max_retries)` loop of `Brain.complete`,
plus the fall-through raise after it. `remaining` is the fuel
`max_retries - attempt`; the loop entry is `remaining = max_retries`,
`attempt = 0`, `last_error = None`. Each arm mirrors one `except` clause:
transient errors (`RateLimitError`, `APIError`) sleep
`retry_delay * (attempt + 1)` and continue while `attempt < max_retries - 1`,
otherwise raise `BrainError` after closing telemetry; any other exception
(including one raised inside `_parse_response`) raises immediately. -/
def completeAttempts (max_retries : Nat) (retry_delay : ℚ) (track : Bool)
    (jsonLoads : JsonDecoder) (api : Nat → AttemptOutcome) :
    Nat → Nat → Option String → List Event × Except String CompletionResult
  | 0, _, last_error =>
      (endEvents track,
       .error ("Max retries exceeded. Last error: " ++ strOfLastError last_error))
  | remaining + 1, attempt, _ =>
      match api attempt with
      | .success response =>
          match parse_response jsonLoads response with
          | .ok result =>
              (Event.apiCall ::
                 (if track then [Event.updateGeneration, Event.endGeneration] else []),
               .ok result)
          | .error e =>
              (Event.apiCall :: endEvents track, .error ("LLM call failed: " ++ e))
      | .rateLimitError msg =>
          if attempt < max_retries - 1 then
            let rest := completeAttempts max_retries retry_delay track jsonLoads api
              remaining (attempt + 1) (some msg)
            (Event.apiCall :: Event.sleep (retry_delay * ((attempt : ℚ) + 1)) :: rest.1,
             rest.2)
          else
            (Event.apiCall :: endEvents track,
             .error ("Max retries (" ++ toString max_retries ++
               ") exceeded. Last error: " ++ msg))
      | .apiError msg =>
          if attempt < max_retries - 1 then
            let rest := completeAttempts max_retries retry_delay track jsonLoads api
              remaining (attempt + 1) (some msg)
            (Event.apiCall :: Event.sleep (retry_delay * ((attempt : ℚ) + 1)) :: rest.1,
             rest.2)
          else
            (Event.apiCall :: endEvents track,
             .error ("Max retries (" ++ toString max_retries ++
               ") exceeded. Last error: " ++ msg))
      | .otherError msg =>
          (Event.apiCall :: endEvents track, .error ("LLM call failed: " ++ msg))

/-- `Brain.complete`: optionally open a telemetry generation, then run the
attempt loop. Returns the event trace and the normalized result or the
`BrainError` message. -/
def Brain.complete (max_retries : Nat) (retry_delay : ℚ) (track : Bool)
    (jsonLoads : JsonDecoder) (api : Nat → AttemptOutcome) :
    List Event × Except String CompletionResult :=
  let r := completeAttempts max_retries retry_delay track jsonLoads api max_retries 0 none
  ((if track then [Event.createGeneration] else []) ++ r.1, r.2)

/-- Number of remote attempts recorded in a trace. -/
def apiCallCount (tr : List Event) : Nat :=
  tr.countP fun e => match e with | .apiCall => true | _ => false

/-- Number of telemetry closures (`end_generation`) recorded in a trace. -/
def endGenCount (tr : List Event) : Nat :=
  tr.countP fun e => match e with | .endGeneration => true | _ => false

/-- The sleep durations of a trace, in order. -/
def sleepDurations (tr : List Event) : List ℚ :=
  tr.filterMap fun e => match e with | .sleep d => some d | _ => none

/-! ### Configuration loading (`Brain.__init__`, `observability`) -/

/-- An environment: `os.getenv` returns the variable's string value or
`None`. -/
abbrev Env := String → Option String

/-- Python truthiness of an optional string: `None` and `""` are falsy. -/
def truthyOpt : Option String → Bool
  | none => false
  | some s => s != ""

/-- The configured state of a `Brain` after `__init__` succeeds. -/
structure Brain where
  api_key : String
  base_url : String
  max_retries : Nat
  retry_delay : ℚ
  clientConstructed : Bool

/-- `Brain.__init__`: `self.api_key = api_key or os.getenv('OPENROUTER_API_KEY')`
(Python `or` takes the right operand when the left is falsy), then raise
`ValueError` when the result is falsy; only afterwards is the OpenAI client
constructed. -/
def Brain.init (api_key : Option String) (env : Env) (base_url : String)
    (max_retries : Nat) (retry_delay : ℚ) : Except String Brain :=
  let key := if truthyOpt api_key then api_key else env "OPENROUTER_API_KEY"
  if truthyOpt key then
    .ok { api_key := key.getD "", base_url := base_url, max_retries := max_retries,
          retry_delay := retry_delay, clientConstructed := true }
  else
    .error "OPENROUTER_API_KEY not found. Set it in .env file or pass as argument."

/-- A constructed Langfuse client (`Langfuse(public_key=..., secret_key=...,
host=...)`). -/
structure LangfuseClient where
  public_key : String
  secret_key : String
  host : String
deriving DecidableEq

/-- `observability.init_langfuse_client`: read the two required credentials
and the optional host, raising `ValueError` for a missing (falsy) required
one before any client is constructed. -/
def init_langfuse_client (env : Env) : Except String LangfuseClient :=
  let public_key := env "LANGFUSE_PUBLIC_KEY"
  let secret_key := env "LANGFUSE_SECRET_KEY"
  let host := (env "LANGFUSE_HOST").getD "https://cloud.langfuse.com"
  if !truthyOpt public_key then
    .error "LANGFUSE_PUBLIC_KEY environment variable is required"
  else if !truthyOpt secret_key then
    .error "LANGFUSE_SECRET_KEY environment variable is required"
  else
    .ok { public_key := public_key.getD "", secret_key := secret_key.getD "",
          host := host }

/-- `observability.get_langfuse_client`: return the cached module-global
client; when the cache (initially `None` at module load) is empty, construct
one on this first use and cache it. Returns the client together with the new
cache state. -/
def get_langfuse_client (cache : Option LangfuseClient) (env : Env) :
    Except String (LangfuseClient × Option LangfuseClient) :=
  match cache with
  | some c => .ok (c, some c)
  | none =>
      match init_langfuse_client env with
      | .ok c => .ok (c, some c)
      | .error e => .error e

/-! ### The wire request (`call_kwargs` of `Brain.complete`, lines 120-131) -/

/-- One `{'role': ..., 'content': ...}` message dict of the request. -/
structure ChatMessage where
  role : String
  content : String
deriving DecidableEq

/-- The keyword arguments passed to `chat.completions.create`: `model`,
`messages` and `temperature` always; `max_tokens` and `tools` are keys of the
dict only when present (`none` = key absent, not a null value). -/
structure CallKwargs where
  model : String
  messages : List ChatMessage
  temperature : ℚ
  max_tokens : Option Nat
  tools : Option (List Val)

/-- Python truthiness of `Optional[int]`: `None` and `0` are falsy. -/
def truthyOptNat : Option Nat → Bool
  | none => false
  | some n => n != 0

/-- Python truthiness of an optional list: `None` and `[]` are falsy. -/
def truthyOptList {α : Type} : Option (List α) → Bool
  | none => false
  | some l => !l.isEmpty

/-- The `call_kwargs` construction of `Brain.complete`: start from `{model,
messages, temperature}` and add `max_tokens` / `tools` only under
`if max_tokens:` / `if tools:` (Python truthiness). -/
def build_call_kwargs (model : String) (messages : List ChatMessage)
    (temperature : ℚ) (max_tokens : Option Nat) (tools : Option (List Val)) :
    CallKwargs :=
  { model := model
    messages := messages
    temperature := temperature
    max_tokens := if truthyOptNat max_tokens then max_tokens else none
    tools := if truthyOptList tools then tools else none }

/-! ### Message models (`core/schema.py`)

Pydantic models are value objects: equality is field-wise, `model_dump()`
serializes to a generic key-value mapping (field declaration order, `datetime`
and nested values kept as objects), and `Model(**d)` reconstructs from a
mapping, validating field types. `datetime` values are modelled as `Nat`
clock readings wrapped in `Val.vtime`. -/

/-- `UserMessage` (inherits `BaseMessage`): `role` defaults to `"user"`,
`timestamp` to `datetime.now()`, `metadata` to `{}`. -/
structure UserMessage where
  role : String := "user"
  content : String
  timestamp : Nat
  metadata : List (String × Val) := []

/-- `AssistantMessage`: `BaseMessage` fields plus `model` and optional
`usage` (a str-to-int mapping). -/
structure AssistantMessage where
  role : String := "assistant"
  content : String
  timestamp : Nat
  metadata : List (String × Val) := []
  model : String
  usage : Option (List (String × Int)) := none

/-- `ToolCallMessage`: its own `BaseModel`, not a `BaseMessage` subclass. -/
structure ToolCallMessage where
  role : String := "tool_call"
  tool_name : String
  arguments : List (String × Val)
  call_id : String
  timestamp : Nat
  metadata : List (String × Val) := []

/-- `ToolResultMessage`: its own `BaseModel`; `result` is `Any`, `success`
defaults to `True`. -/
structure ToolResultMessage where
  role : String := "tool_result"
  tool_name : String
  result : Val
  call_id : String
  success : Bool := true
  timestamp : Nat
  metadata : List (String × Val) := []

/-- `Message = Union[UserMessage, AssistantMessage, ToolCallMessage,
ToolResultMessage]`. -/
inductive Message where
  | user (m : UserMessage)
  | assistant (m : AssistantMessage)
  | toolCall (m : ToolCallMessage)
  | toolResult (m : ToolResultMessage)

/-- Serialize an optional str-to-int mapping (`usage`) the way `model_dump`
does: `None` stays `None`, a dict becomes a dict of ints. -/
def encodeUsage : Option (List (String × Int)) → Val
  | none => .vnone
  | some l => .vdict (l.map fun kv => (kv.1, .vint kv.2))

/-- Validate a dumped `usage` value back into `Optional[Dict[str, int]]`. -/
def decodeIntDict : List (String × Val) → Option (List (String × Int))
  | [] => some []
  | (k, .vint n) :: rest => (decodeIntDict rest).map (fun l => (k, n) :: l)
  | _ => none

/-- Validate a dumped optional usage mapping. -/
def decodeUsage : Val → Option (Option (List (String × Int)))
  | .vnone => some none
  | .vdict kvs => (decodeIntDict kvs).map some
  | _ => none

/-- `UserMessage.model_dump()`. -/
def UserMessage.toDict (m : UserMessage) : List (String × Val) :=
  [("role", .vstr m.role), ("content", .vstr m.content),
   ("timestamp", .vtime m.timestamp), ("metadata", .vdict m.metadata)]

/-- `UserMessage(**d)`: reconstruct from a mapping, validating field types. -/
def UserMessage.fromDict (d : List (String × Val)) : Option UserMessage :=
  match d.lookup "role", d.lookup "content", d.lookup "timestamp",
      d.lookup "metadata" with
  | some (.vstr role), some (.vstr content), some (.vtime ts), some (.vdict md) =>
      some { role := role, content := content, timestamp := ts, metadata := md }
  | _, _, _, _ => none

/-- `AssistantMessage.model_dump()`. -/
def AssistantMessage.toDict (m : AssistantMessage) : List (String × Val) :=
  [("role", .vstr m.role), ("content", .vstr m.content),
   ("timestamp", .vtime m.timestamp), ("metadata", .vdict m.metadata),
   ("model", .vstr m.model), ("usage", encodeUsage m.usage)]

/-- `AssistantMessage(**d)`. -/
def AssistantMessage.fromDict (d : List (String × Val)) : Option AssistantMessage :=
  match d.lookup "role", d.lookup "content", d.lookup "timestamp",
      d.lookup "metadata", d.lookup "model", d.lookup "usage" with
  | some (.vstr role), some (.vstr content), some (.vtime ts),
      some (.vdict md), some (.vstr model), some u =>
      (decodeUsage u).map fun usage =>
        { role := role, content := content, timestamp := ts, metadata := md,
          model := model, usage := usage }
  | _, _, _, _, _, _ => none

/-- `ToolCallMessage.model_dump()`. -/
def ToolCallMessage.toDict (m : ToolCallMessage) : List (String × Val) :=
  [("role", .vstr m.role), ("tool_name", .vstr m.tool_name),
   ("arguments", .vdict m.arguments), ("call_id", .vstr m.call_id),
   ("timestamp", .vtime m.timestamp), ("metadata", .vdict m.metadata)]

/-- `ToolCallMessage(**d)`. -/
def ToolCallMessage.fromDict (d : List (String × Val)) : Option ToolCallMessage :=
  match d.lookup "role", d.lookup "tool_name", d.lookup "arguments",
      d.lookup "call_id", d.lookup "timestamp", d.lookup "metadata" with
  | some (.vstr role), some (.vstr tool_name), some (.vdict args),
      some (.vstr call_id), some (.vtime ts), some (.vdict md) =>
      some { role := role, tool_name := tool_name, arguments := args,
             call_id := call_id, timestamp := ts, metadata := md }
  | _, _, _, _, _, _ => none

/-- `ToolResultMessage.model_dump()`. -/
def ToolResultMessage.toDict (m : ToolResultMessage) : List (String × Val) :=
  [("role", .vstr m.role), ("tool_name", .vstr m.tool_name),
   ("result", m.result), ("call_id", .vstr m.call_id),
   ("success", .vbool m.success), ("timestamp", .vtime m.timestamp),
   ("metadata", .vdict m.metadata)]

/-- `ToolResultMessage(**d)`. -/
def ToolResultMessage.fromDict (d : List (String × Val)) : Option ToolResultMessage :=
  match d.lookup "role", d.lookup "tool_name", d.lookup "result",
      d.lookup "call_id", d.lookup "success", d.lookup "timestamp",
      d.lookup "metadata" with
  | some (.vstr role), some (.vstr tool_name), some result,
      some (.vstr call_id), some (.vbool success), some (.vtime ts),
      some (.vdict md) =>
      some { role := role, tool_name := tool_name, result := result,
             call_id := call_id, success := success, timestamp := ts,
             metadata := md }
  | _, _, _, _, _, _, _ => none

/-- `UserMessage(content=...)` with the `timestamp` default factory applied
at clock reading `now`. -/
def UserMessage.mkDefault (now : Nat) (content : String) : UserMessage :=
  { content := content, timestamp := now }

/-- `ToolCallMessage(tool_name=..., arguments=..., call_id=...)` with the
`timestamp` default factory applied at clock reading `now`. -/
def ToolCallMessage.mkDefault (now : Nat) (tool_name : String)
    (arguments : List (String × Val)) (call_id : String) : ToolCallMessage :=
  { tool_name := tool_name, arguments := arguments, call_id := call_id,
    timestamp := now }

/-- `AssistantMessage(content=..., model=...)` with the `timestamp` default
factory applied at clock reading `now`. -/
def AssistantMessage.mkDefault (now : Nat) (content model : String) :
    AssistantMessage :=
  { content := content, model := model, timestamp := now }

/-- `ToolResultMessage(tool_name=..., result=..., call_id=...)` with the
`timestamp` default factory applied at clock reading `now`. -/
def ToolResultMessage.mkDefault (now : Nat) (tool_name : String) (result : Val)
    (call_id : String) : ToolResultMessage :=
  { tool_name := tool_name, result := result, call_id := call_id,
    timestamp := now }

/-! ### Populated-ness of a `CompletionResult` field -/

/-- The `content` field is meaningfully populated: a non-`None`, non-empty
string. -/
def contentPopulated (c : Option String) : Prop := ∃ s, c = some s ∧ s ≠ ""

/-- A parsed `tool_calls` field is meaningfully populated: a non-`None`,
non-empty list. -/
def toolCallsPopulated (t : Option (List ParsedToolCall)) : Prop :=
  ∃ l, t = some l ∧ l ≠ []

/-- A wire `tool_calls` field is meaningfully populated. -/
def wireToolCallsPopulated (t : Option (List ToolCallWire)) : Prop :=
  ∃ l, t = some l ∧ l ≠ []

/-! ### Concrete instances, used to evaluate the theorems at witness inputs -/

/-- A wire tool invocation used in concrete instances. -/
def toolCallWireEx : ToolCallWire :=
  { id := "1", function := { name := "f", arguments := "\x7b\x7d" } }

/-- A gateway response carrying both text content and a tool invocation (the
wire shape permits this). -/
def responseWithBoth : Response :=
  { choices := [{ message := { content := some "hi",
                               tool_calls := some [toolCallWireEx] } }],
    model := "m",
    usage := { prompt_tokens := 1, completion_tokens := 2, total_tokens := 3 } }

/-- A concrete decoder: `"good"` decodes to a one-entry mapping, everything
else fails the way `json.loads` reports a syntax error. -/
def dWit : JsonDecoder := fun s =>
  if s = "good" then .ok (.vdict [("x", .vint 1)])
  else .error "Expecting value: line 1 column 1 (char 0)"

/-- A wire tool invocation with decodable arguments. -/
def tcGoodWit : ToolCallWire :=
  { id := "a", function := { name := "f", arguments := "good" } }

/-- A wire tool invocation with undecodable arguments. -/
def tcBadWit : ToolCallWire :=
  { id := "b", function := { name := "g", arguments := "bad" } }

/-- A response message carrying two tool invocations and no text. -/
def choiceToolsWit : Choice :=
  { message := { content := none, tool_calls := some [tcGoodWit, tcBadWit] } }

/-- A response carrying `choiceToolsWit`. -/
def rToolsWit : Response :=
  { choices := [choiceToolsWit], model := "m",
    usage := { prompt_tokens := 1, completion_tokens := 2, total_tokens := 3 } }

/-- A text-only response message. -/
def choiceTextWit : Choice :=
  { message := { content := some "ok", tool_calls := none } }

/-- A text-only response. -/
def rTextWit : Response :=
  { choices := [choiceTextWit], model := "m",
    usage := { prompt_tokens := 4, completion_tokens := 5, total_tokens := 9 } }

/-- The normalized result of `rTextWit`. -/
def resTextWit : CompletionResult :=
  { content := some "ok", tool_calls := none, model := "m",
    usage := { prompt_tokens := 4, completion_tokens := 5, total_tokens := 9 } }

/-- A gateway stub that raises a rate-limit error on the first two attempts
and succeeds on the third. -/
def apiRetryWit : Nat → AttemptOutcome := fun i =>
  if i < 2 then .rateLimitError "rate limited" else .success rTextWit

/-- An empty environment. -/
def envEmpty : Env := fun _ => none

/-- An environment holding only the Langfuse public key. -/
def envPubOnly : Env := fun k =>
  if k = "LANGFUSE_PUBLIC_KEY" then some "pk" else none

/-! ### Helper lemmas -/

theorem transientMsg_cases (o : AttemptOutcome) (m : String)
    (h : o.transientMsg = some m) :
    o = .rateLimitError m ∨ o = .apiError m := by
  cases o with
  | rateLimitError m' => simp [AttemptOutcome.transientMsg] at h; subst h; left; rfl
  | apiError m' => simp [AttemptOutcome.transientMsg] at h; subst h; right; rfl
  | success r => simp [AttemptOutcome.transientMsg] at h
  | otherError m' => simp [AttemptOutcome.transientMsg] at h

theorem apiCallCount_cons_apiCall (tr : List Event) :
    apiCallCount (Event.apiCall :: tr) = apiCallCount tr + 1 := by
  simp [apiCallCount]

theorem apiCallCount_cons_sleep (d : ℚ) (tr : List Event) :
    apiCallCount (Event.sleep d :: tr) = apiCallCount tr := by
  simp [apiCallCount]

theorem sleepDurations_cons_apiCall (tr : List Event) :
    sleepDurations (Event.apiCall :: tr) = sleepDurations tr := by
  simp [sleepDurations]

theorem sleepDurations_cons_sleep (d : ℚ) (tr : List Event) :
    sleepDurations (Event.sleep d :: tr) = d :: sleepDurations tr := by
  simp [sleepDurations]

theorem endGenCount_cons_apiCall (tr : List Event) :
    endGenCount (Event.apiCall :: tr) = endGenCount tr := by
  simp [endGenCount]

theorem endGenCount_cons_sleep (d : ℚ) (tr : List Event) :
    endGenCount (Event.sleep d :: tr) = endGenCount tr := by
  simp [endGenCount]

/-! ### Theorems -/

/-- C10: with `max_retries = 0` (which also models every non-positive value,
since `range(n)` is empty for `n <= 0`), `complete` makes no remote call,
closes the telemetry record when one was opened, and raises `BrainError`
with message `Max retries exceeded. Last error: None` from the fall-through
after the loop. -/
theorem brain_complete_zero_retries (δ : ℚ) (track : Bool) (d : JsonDecoder)
    (api : Nat → AttemptOutcome) :
    (Brain.complete 0 δ track d api).2 =
        .error "Max retries exceeded. Last error: None" ∧
    apiCallCount (Brain.complete 0 δ track d api).1 = 0 ∧
    endGenCount (Brain.complete 0 δ track d api).1 = (if track then 1 else 0) := by
  cases track <;>
    simp [Brain.complete, completeAttempts, endEvents, strOfLastError,
      apiCallCount, endGenCount]

/-- C4: a non-transient exception — whether raised by the remote call itself
(`otherError`) or by the post-call normalization (`parse_response` failing) —
makes `complete` fail immediately: exactly one remote attempt, the telemetry
record closed when one was opened, and `BrainError` carrying
`LLM call failed: ` plus the original message. -/
theorem brain_complete_nontransient_immediate (max_retries : Nat) (δ : ℚ)
    (track : Bool) (d : JsonDecoder) (api : Nat → AttemptOutcome) (msg : String)
    (hmr : 1 ≤ max_retries)
    (h : api 0 = .otherError msg ∨
         ∃ r, api 0 = .success r ∧ parse_response d r = .error msg) :
    (Brain.complete max_retries δ track d api).2 =
        .error ("LLM call failed: " ++ msg) ∧
    apiCallCount (Brain.complete max_retries δ track d api).1 = 1 ∧
    endGenCount (Brain.complete max_retries δ track d api).1 =
        (if track then 1 else 0) := by
  obtain ⟨mr, rfl⟩ : ∃ mr, max_retries = mr + 1 := ⟨max_retries - 1, by omega⟩
  rcases h with h | ⟨r, hapi, hparse⟩
  · cases track <;>
      simp [Brain.complete, completeAttempts, h, endEvents, apiCallCount,
        endGenCount]
  · cases track <;>
      simp [Brain.complete, completeAttempts, hapi, hparse, endEvents,
        apiCallCount, endGenCount]

/-- C5: on a text-only response (no tool invocations: `tool_calls` is `None`
or the empty list) obtained on the first attempt, `complete` returns a result
with `tool_calls = None`, `content` equal to the response message's text,
`model` equal to the model the response reports, and the usage counts copied
unchanged. -/
theorem brain_complete_text_only (max_retries : Nat) (δ : ℚ) (track : Bool)
    (d : JsonDecoder) (api : Nat → AttemptOutcome) (r : Response) (choice : Choice)
    (hmr : 1 ≤ max_retries)
    (hapi : api 0 = .success r)
    (hch : r.choices = [choice])
    (htc : choice.message.tool_calls = none ∨ choice.message.tool_calls = some []) :
    (Brain.complete max_retries δ track d api).2 =
      .ok { content := choice.message.content
            tool_calls := none
            model := r.model
            usage := { prompt_tokens := r.usage.prompt_tokens
                       completion_tokens := r.usage.completion_tokens
                       total_tokens := r.usage.total_tokens } } := by
  obtain ⟨mr, rfl⟩ : ∃ mr, max_retries = mr + 1 := ⟨max_retries - 1, by omega⟩
  have hparse : parse_response d r =
      .ok { content := choice.message.content
            tool_calls := none
            model := r.model
            usage := { prompt_tokens := r.usage.prompt_tokens
                       completion_tokens := r.usage.completion_tokens
                       total_tokens := r.usage.total_tokens } } := by
    rcases htc with htc | htc <;> simp [parse_response, hch, htc]
  simp [Brain.complete, completeAttempts, hapi, hparse]

theorem parse_failed_msg_ne_empty (e : String) :
    ("Failed to parse arguments: " ++ e) ≠ "" := by
  intro hcon
  have hlen := congrArg String.length hcon
  rw [String.length_append] at hlen
  have h1 : "Failed to parse arguments: ".length = 27 := by decide
  have h2 : "".length = 0 := by decide
  rw [h1, h2] at hlen
  omega

theorem parseOneToolCall_error (d : JsonDecoder) (tc : ToolCallWire) (e : String)
    (h : d tc.function.arguments = .error e) :
    parseOneToolCall d tc =
      { id := tc.id, name := tc.function.name, arguments := .vdict [],
        error := some ("Failed to parse arguments: " ++ e) } := by
  simp [parseOneToolCall, h]

theorem parseOneToolCall_ok (d : JsonDecoder) (tc : ToolCallWire) (v : Val)
    (h : d tc.function.arguments = .ok v) :
    parseOneToolCall d tc =
      { id := tc.id, name := tc.function.name, arguments := v, error := none } := by
  simp [parseOneToolCall, h]

/-- C1: for a first-attempt response carrying a non-empty list of tool
invocations, `complete` succeeds and returns exactly one parsed entry per
invocation, in response order: an invocation whose arguments string fails to
decode gets an empty arguments mapping `{}` and a non-empty error string,
while every invocation whose arguments string decodes gets the decoded value
and no error. -/
theorem brain_complete_tool_calls_decode (max_retries : Nat) (δ : ℚ)
    (track : Bool) (d : JsonDecoder) (api : Nat → AttemptOutcome)
    (r : Response) (choice : Choice) (tcs : List ToolCallWire)
    (hmr : 1 ≤ max_retries)
    (hapi : api 0 = .success r)
    (hch : r.choices = [choice])
    (htc : choice.message.tool_calls = some tcs)
    (hne : tcs ≠ []) :
    ∃ ptcs : List ParsedToolCall,
      (Brain.complete max_retries δ track d api).2 =
        .ok { content := choice.message.content
              tool_calls := some ptcs
              model := r.model
              usage := { prompt_tokens := r.usage.prompt_tokens
                         completion_tokens := r.usage.completion_tokens
                         total_tokens := r.usage.total_tokens } } ∧
      ptcs.length = tcs.length ∧
      ∀ (i : Nat) (hi : i < tcs.length) (hi' : i < ptcs.length),
        (∀ e, d (tcs.get ⟨i, hi⟩).function.arguments = .error e →
           (ptcs.get ⟨i, hi'⟩).arguments = .vdict [] ∧
           ∃ s, (ptcs.get ⟨i, hi'⟩).error = some s ∧ s ≠ "") ∧
        (∀ v, d (tcs.get ⟨i, hi⟩).function.arguments = .ok v →
           (ptcs.get ⟨i, hi'⟩).arguments = v ∧
           (ptcs.get ⟨i, hi'⟩).error = none) := by
  obtain ⟨mr, rfl⟩ : ∃ mr, max_retries = mr + 1 := ⟨max_retries - 1, by omega⟩
  refine ⟨tcs.map (parseOneToolCall d), ?_, by simp, ?_⟩
  · have hparse : parse_response d r =
        .ok { content := choice.message.content
              tool_calls := some (tcs.map (parseOneToolCall d))
              model := r.model
              usage := { prompt_tokens := r.usage.prompt_tokens
                         completion_tokens := r.usage.completion_tokens
                         total_tokens := r.usage.total_tokens } } := by
      have hempty : tcs.isEmpty = false := by
        cases tcs with
        | nil => exact absurd rfl hne
        | cons hd tl => rfl
      simp [parse_response, hch, htc, hempty]
    simp [Brain.complete, completeAttempts, hapi, hparse]
  · intro i hi hi'
    have hget : (tcs.map (parseOneToolCall d)).get ⟨i, hi'⟩ =
        parseOneToolCall d (tcs.get ⟨i, hi⟩) := by
      simp [List.get_eq_getElem]
    constructor
    · intro e he
      rw [hget, parseOneToolCall_error d _ e he]
      exact ⟨rfl, "Failed to parse arguments: " ++ e, rfl,
        parse_failed_msg_ne_empty e⟩
    · intro v hv
      rw [hget, parseOneToolCall_ok d _ v hv]
      exact ⟨rfl, rfl⟩

theorem completeAttempts_success_step (max_retries : Nat) (δ : ℚ) (track : Bool)
    (d : JsonDecoder) (api : Nat → AttemptOutcome) (rem attempt : Nat)
    (le : Option String) (r : Response) (res : CompletionResult)
    (hapi : api attempt = .success r) (hparse : parse_response d r = .ok res) :
    completeAttempts max_retries δ track d api (rem + 1) attempt le =
      (Event.apiCall ::
         (if track then [Event.updateGeneration, Event.endGeneration] else []),
       .ok res) := by
  simp [completeAttempts, hapi, hparse]

theorem completeAttempts_transient_step (max_retries : Nat) (δ : ℚ) (track : Bool)
    (d : JsonDecoder) (api : Nat → AttemptOutcome) (rem attempt : Nat)
    (le : Option String) (m : String)
    (hm : (api attempt).transientMsg = some m)
    (hcond : attempt < max_retries - 1) :
    completeAttempts max_retries δ track d api (rem + 1) attempt le =
      (Event.apiCall :: Event.sleep (δ * ((attempt : ℚ) + 1)) ::
         (completeAttempts max_retries δ track d api rem (attempt + 1) (some m)).1,
       (completeAttempts max_retries δ track d api rem (attempt + 1) (some m)).2) := by
  rcases transientMsg_cases _ _ hm with h | h <;> simp [completeAttempts, h, hcond]

theorem completeAttempts_transient_last (max_retries : Nat) (δ : ℚ) (track : Bool)
    (d : JsonDecoder) (api : Nat → AttemptOutcome) (rem attempt : Nat)
    (le : Option String) (m : String)
    (hm : (api attempt).transientMsg = some m)
    (hcond : ¬ attempt < max_retries - 1) :
    completeAttempts max_retries δ track d api (rem + 1) attempt le =
      (Event.apiCall :: endEvents track,
       .error ("Max retries (" ++ toString max_retries ++
         ") exceeded. Last error: " ++ m)) := by
  rcases transientMsg_cases _ _ hm with h | h <;> simp [completeAttempts, h, hcond]

theorem completeAttempts_transients_then_success (max_retries : Nat) (δ : ℚ)
    (track : Bool) (d : JsonDecoder) (api : Nat → AttemptOutcome)
    (r : Response) (res : CompletionResult)
    (hparse : parse_response d r = .ok res) :
    ∀ (k remaining attempt : Nat) (le : Option String),
      k < remaining → attempt + remaining = max_retries →
      (∀ i, i < k → ((api (attempt + i)).transientMsg).isSome) →
      api (attempt + k) = .success r →
      (completeAttempts max_retries δ track d api remaining attempt le).2 = .ok res ∧
      apiCallCount (completeAttempts max_retries δ track d api remaining attempt le).1
        = k + 1 ∧
      sleepDurations (completeAttempts max_retries δ track d api remaining attempt le).1
        = (List.range k).map (fun i : ℕ => δ * ((attempt : ℚ) + (i : ℚ) + 1)) := by
  intro k
  induction k with
  | zero =>
      intro remaining attempt le hk hsum htrans hsucc
      obtain ⟨rem, rfl⟩ : ∃ rem, remaining = rem + 1 := ⟨remaining - 1, by omega⟩
      rw [Nat.add_zero] at hsucc
      rw [completeAttempts_success_step max_retries δ track d api rem attempt le
        r res hsucc hparse]
      cases track <;> simp [apiCallCount, sleepDurations]
  | succ k ih =>
      intro remaining attempt le hk hsum htrans hsucc
      obtain ⟨rem, rfl⟩ : ∃ rem, remaining = rem + 1 := ⟨remaining - 1, by omega⟩
      have ht0 : ((api (attempt + 0)).transientMsg).isSome := htrans 0 (by omega)
      rw [Nat.add_zero] at ht0
      obtain ⟨m, hm⟩ := Option.isSome_iff_exists.mp ht0
      have hcond : attempt < max_retries - 1 := by omega
      have ihspec := ih rem (attempt + 1) (some m) (by omega) (by omega)
        (fun i hi => by
          have h := htrans (i + 1) (by omega)
          rwa [show attempt + (i + 1) = attempt + 1 + i by omega] at h)
        (by rwa [show attempt + 1 + k = attempt + (k + 1) by omega])
      rw [completeAttempts_transient_step max_retries δ track d api rem attempt le
        m hm hcond]
      refine ⟨ihspec.1, ?_, ?_⟩
      · rw [apiCallCount_cons_apiCall, apiCallCount_cons_sleep, ihspec.2.1]
      · rw [sleepDurations_cons_apiCall, sleepDurations_cons_sleep, ihspec.2.2]
        rw [List.range_succ_eq_map, List.map_cons, List.map_map]
        refine congrArg₂ List.cons (by push_cast; ring) ?_
        refine List.map_congr_left fun i _ => ?_
        simp only [Function.comp]
        push_cast
        ring

/-- C2: when the remote call raises a transient (rate-limit or API) error on
each of the first `k` attempts (`k < max_retries`) and succeeds on attempt
`k + 1`, `complete` returns the normalized successful result, makes exactly
`k + 1` remote calls, and the successive waits are `retry_delay * 1`,
`retry_delay * 2`, ..., `retry_delay * k` — linear, not exponential,
backoff (the wait before attempt `i + 1` is `retry_delay * i`). -/
theorem brain_complete_retry_then_success (max_retries k : Nat) (δ : ℚ)
    (track : Bool) (d : JsonDecoder) (api : Nat → AttemptOutcome)
    (r : Response) (res : CompletionResult)
    (hk : k < max_retries)
    (htrans : ∀ i, i < k → ((api i).transientMsg).isSome)
    (hsucc : api k = .success r)
    (hparse : parse_response d r = .ok res) :
    (Brain.complete max_retries δ track d api).2 = .ok res ∧
    apiCallCount (Brain.complete max_retries δ track d api).1 = k + 1 ∧
    sleepDurations (Brain.complete max_retries δ track d api).1 =
      (List.range k).map (fun i : ℕ => δ * ((i : ℚ) + 1)) := by
  obtain ⟨h1, h2, h3⟩ := completeAttempts_transients_then_success max_retries δ
    track d api r res hparse k max_retries 0 none hk (by omega)
    (fun i hi => by simpa using htrans i hi) (by simpa using hsucc)
  refine ⟨?_, ?_, ?_⟩
  · simpa [Brain.complete] using h1
  · cases track <;> simpa [Brain.complete, apiCallCount] using h2
  · cases track <;> simpa [Brain.complete, sleepDurations] using h3

theorem completeAttempts_all_transient (max_retries : Nat) (δ : ℚ) (track : Bool)
    (d : JsonDecoder) (api : Nat → AttemptOutcome) (msgs : Nat → String)
    (htrans : ∀ i, i < max_retries → (api i).transientMsg = some (msgs i)) :
    ∀ (remaining attempt : Nat) (le : Option String),
      0 < remaining → attempt + remaining = max_retries →
      (completeAttempts max_retries δ track d api remaining attempt le).2 =
        .error ("Max retries (" ++ toString max_retries ++
          ") exceeded. Last error: " ++ msgs (max_retries - 1)) ∧
      apiCallCount (completeAttempts max_retries δ track d api remaining attempt le).1
        = remaining ∧
      endGenCount (completeAttempts max_retries δ track d api remaining attempt le).1
        = (if track then 1 else 0) := by
  intro remaining
  induction remaining with
  | zero => intro attempt le hpos hsum; simp at hpos
  | succ rem ih =>
      intro attempt le hpos hsum
      have hmsg : (api attempt).transientMsg = some (msgs attempt) :=
        htrans attempt (by omega)
      cases rem with
      | zero =>
          have hcond : ¬ attempt < max_retries - 1 := by omega
          rw [completeAttempts_transient_last max_retries δ track d api 0 attempt
            le (msgs attempt) hmsg hcond]
          have hat : attempt = max_retries - 1 := by omega
          rw [hat]
          cases track <;> simp [apiCallCount, endGenCount, endEvents]
      | succ rem' =>
          have hcond : attempt < max_retries - 1 := by omega
          rw [completeAttempts_transient_step max_retries δ track d api (rem' + 1)
            attempt le (msgs attempt) hmsg hcond]
          obtain ⟨h1, h2, h3⟩ := ih (attempt + 1) (some (msgs attempt))
            (by omega) (by omega)
          refine ⟨h1, ?_, ?_⟩
          · rw [apiCallCount_cons_apiCall, apiCallCount_cons_sleep, h2]
          · rw [endGenCount_cons_apiCall, endGenCount_cons_sleep, h3]

/-- C3: when every attempt raises a transient (rate-limit or API) error,
`complete` makes exactly `max_retries` remote calls and then raises one
`BrainError` whose message carries the last underlying error's message, and
the telemetry record, when one was opened, is closed exactly once before the
raise. -/
theorem brain_complete_exhausts_retries (max_retries : Nat) (δ : ℚ)
    (track : Bool) (d : JsonDecoder) (api : Nat → AttemptOutcome)
    (msgs : Nat → String)
    (hmr : 1 ≤ max_retries)
    (htrans : ∀ i, i < max_retries → (api i).transientMsg = some (msgs i)) :
    (Brain.complete max_retries δ track d api).2 =
      .error ("Max retries (" ++ toString max_retries ++
        ") exceeded. Last error: " ++ msgs (max_retries - 1)) ∧
    apiCallCount (Brain.complete max_retries δ track d api).1 = max_retries ∧
    endGenCount (Brain.complete max_retries δ track d api).1 =
      (if track then 1 else 0) := by
  obtain ⟨h1, h2, h3⟩ := completeAttempts_all_transient max_retries δ track d api
    msgs htrans max_retries 0 none (by omega) (by omega)
  refine ⟨?_, ?_, ?_⟩
  · simpa [Brain.complete] using h1
  · cases track <;> simpa [Brain.complete, apiCallCount] using h2
  · cases track <;> simpa [Brain.complete, endGenCount] using h3

/-- C6: a missing (or empty, hence falsy) required credential is a
configuration error (`ValueError`) whose message names the missing variable,
raised by the pure initialization before the corresponding client object is
ever constructed (so before any network call); and for the telemetry
component the check runs at first use of the lazily-cached client — the
module-level cache starts out empty and `get_langfuse_client` initializes
exactly on the first access, reusing the cached client afterwards. -/
theorem config_errors_at_first_use :
    (∀ (env : Env) (api_key : Option String) (base_url : String)
       (mr : Nat) (rd : ℚ),
       truthyOpt api_key = false →
       truthyOpt (env "OPENROUTER_API_KEY") = false →
       Brain.init api_key env base_url mr rd =
         .error "OPENROUTER_API_KEY not found. Set it in .env file or pass as argument.") ∧
    (∀ env : Env, truthyOpt (env "LANGFUSE_PUBLIC_KEY") = false →
       init_langfuse_client env =
         .error "LANGFUSE_PUBLIC_KEY environment variable is required") ∧
    (∀ env : Env, truthyOpt (env "LANGFUSE_PUBLIC_KEY") = true →
       truthyOpt (env "LANGFUSE_SECRET_KEY") = false →
       init_langfuse_client env =
         .error "LANGFUSE_SECRET_KEY environment variable is required") ∧
    (∀ env : Env, get_langfuse_client none env =
       (init_langfuse_client env).map (fun c => (c, some c))) ∧
    (∀ (env : Env) (c : LangfuseClient),
       get_langfuse_client (some c) env = .ok (c, some c)) := by
  refine ⟨?_, ?_, ?_, ?_, ?_⟩
  · intro env api_key base_url mr rd h1 h2
    simp [Brain.init, h1, h2]
  · intro env h1
    simp [init_langfuse_client, h1]
  · intro env h1 h2
    simp [init_langfuse_client, h1, h2]
  · intro env
    cases h : init_langfuse_client env <;>
      simp [get_langfuse_client, h, Except.map]
  · intro env c
    simp [get_langfuse_client]

/-- C7 counterexample: `max_tokens = 0` is provided yet omitted from the wire
request, because the code guards with Python truthiness (`if max_tokens:`),
so "field present iff argument provided" fails at this input. -/
theorem call_kwargs_provided_iff_counterexample :
    ¬ (((build_call_kwargs "m" [] 1 (some 0) none).max_tokens).isSome
         ↔ (some 0 : Option Nat).isSome) := by
  simp [build_call_kwargs, truthyOptNat]

/-- C7 amended: the wire request always contains `model`, `messages` and
`temperature` as supplied; it contains `max_tokens` iff that argument was
provided with a truthy (non-zero) value, and `tools` iff that argument was
provided with a truthy (non-empty) value, each then forwarded unchanged;
otherwise the key is omitted entirely (`none`), never sent as a null
placeholder. -/
theorem call_kwargs_fields (model : String) (messages : List ChatMessage)
    (temperature : ℚ) (max_tokens : Option Nat) (tools : Option (List Val)) :
    (build_call_kwargs model messages temperature max_tokens tools).model = model ∧
    (build_call_kwargs model messages temperature max_tokens tools).messages
      = messages ∧
    (build_call_kwargs model messages temperature max_tokens tools).temperature
      = temperature ∧
    (((build_call_kwargs model messages temperature max_tokens tools).max_tokens).isSome
       ↔ ∃ n, max_tokens = some n ∧ n ≠ 0) ∧
    (∀ n, max_tokens = some n → n ≠ 0 →
       (build_call_kwargs model messages temperature max_tokens tools).max_tokens
         = some n) ∧
    (((build_call_kwargs model messages temperature max_tokens tools).tools).isSome
       ↔ ∃ ts, tools = some ts ∧ ts ≠ []) ∧
    (∀ ts, tools = some ts → ts ≠ [] →
       (build_call_kwargs model messages temperature max_tokens tools).tools
         = some ts) := by
  refine ⟨rfl, rfl, rfl, ?_, ?_, ?_, ?_⟩
  · cases max_tokens with
    | none => simp [build_call_kwargs, truthyOptNat]
    | some n =>
        by_cases h : n = 0 <;> simp [build_call_kwargs, truthyOptNat, h]
  · intro n hn hne
    subst hn
    simp [build_call_kwargs, truthyOptNat, hne]
  · cases tools with
    | none => simp [build_call_kwargs, truthyOptList]
    | some ts =>
        cases ts with
        | nil => simp [build_call_kwargs, truthyOptList]
        | cons hd tl => simp [build_call_kwargs, truthyOptList]
  · intro ts hts hne
    subst hts
    cases ts with
    | nil => exact absurd rfl hne
    | cons hd tl => simp [build_call_kwargs, truthyOptList]

/-- C8 counterexample: a gateway response carrying both text and a tool
invocation yields a `CompletionResult` (returned successfully by `complete`)
with both `content` and `tool_calls` populated — the claimed invariant is not
enforced by the code. -/
theorem completion_result_both_populated_counterexample :
    (Brain.complete 3 1 false (fun _ => .ok (.vdict []))
        (fun _ => .success responseWithBoth)).2 =
      .ok { content := some "hi",
            tool_calls := some [{ id := "1", name := "f",
                                  arguments := .vdict [], error := none }],
            model := "m",
            usage := { prompt_tokens := 1, completion_tokens := 2,
                       total_tokens := 3 } } ∧
    contentPopulated (some "hi") ∧
    toolCallsPopulated (some [{ id := "1", name := "f",
                                arguments := .vdict [], error := none }]) := by
  refine ⟨rfl, ⟨"hi", rfl, by decide⟩, ⟨_, rfl, by simp⟩⟩

/-- C8 amended: `_parse_response` passes both fields through, so the
"exactly one populated" invariant holds for exactly those responses whose
message itself populates exactly one of text content and tool invocations
(which is what the gateway returns in practice); the code does not enforce it
for responses carrying both or neither. -/
theorem completion_result_exactly_one_populated (d : JsonDecoder) (r : Response)
    (choice : Choice)
    (hch : r.choices = [choice])
    (h : (contentPopulated choice.message.content ∧
            ¬ wireToolCallsPopulated choice.message.tool_calls) ∨
         (wireToolCallsPopulated choice.message.tool_calls ∧
            ¬ contentPopulated choice.message.content)) :
    ∃ res, parse_response d r = .ok res ∧
      res.content = choice.message.content ∧
      ((contentPopulated res.content ∧ ¬ toolCallsPopulated res.tool_calls) ∨
       (toolCallsPopulated res.tool_calls ∧ ¬ contentPopulated res.content)) := by
  cases htc : choice.message.tool_calls with
  | none =>
      refine ⟨{ content := choice.message.content, tool_calls := none,
                model := r.model,
                usage := { prompt_tokens := r.usage.prompt_tokens,
                           completion_tokens := r.usage.completion_tokens,
                           total_tokens := r.usage.total_tokens } },
              by simp [parse_response, hch, htc], rfl, ?_⟩
      rcases h with ⟨hc, _⟩ | ⟨⟨l, hl, _⟩, _⟩
      · exact Or.inl ⟨hc, by simp [toolCallsPopulated]⟩
      · rw [htc] at hl; exact absurd hl (by simp)
  | some tcs =>
      cases tcs with
      | nil =>
          refine ⟨{ content := choice.message.content, tool_calls := none,
                    model := r.model,
                    usage := { prompt_tokens := r.usage.prompt_tokens,
                               completion_tokens := r.usage.completion_tokens,
                               total_tokens := r.usage.total_tokens } },
                  by simp [parse_response, hch, htc], rfl, ?_⟩
          rcases h with ⟨hc, _⟩ | ⟨⟨l, hl, hlne⟩, _⟩
          · exact Or.inl ⟨hc, by simp [toolCallsPopulated]⟩
          · rw [htc] at hl
            have : l = [] := by simpa using hl.symm
            exact absurd this hlne
      | cons tc rest =>
          refine ⟨{ content := choice.message.content,
                    tool_calls := some ((tc :: rest).map (parseOneToolCall d)),
                    model := r.model,
                    usage := { prompt_tokens := r.usage.prompt_tokens,
                               completion_tokens := r.usage.completion_tokens,
                               total_tokens := r.usage.total_tokens } },
                  by simp [parse_response, hch, htc], rfl, ?_⟩
          rcases h with ⟨_, hnt⟩ | ⟨_, hnc⟩
          · exact absurd ⟨tc :: rest, htc, by simp⟩ hnt
          · exact Or.inr ⟨⟨(tc :: rest).map (parseOneToolCall d), rfl, by simp⟩, hnc⟩

theorem decodeIntDict_encode (l : List (String × Int)) :
    decodeIntDict (l.map fun kv => (kv.1, Val.vint kv.2)) = some l := by
  induction l with
  | nil => rfl
  | cons kv rest ih =>
      obtain ⟨k, v⟩ := kv
      simp [decodeIntDict, ih]

theorem decodeUsage_encode (u : Option (List (String × Int))) :
    decodeUsage (encodeUsage u) = some u := by
  cases u with
  | none => rfl
  | some l => simp [encodeUsage, decodeUsage, decodeIntDict_encode]

/-- C9: for each of the four `Message` variants (user, assistant, tool-call,
tool-result), serializing a value to the generic key-value mapping and
reconstructing that variant from the mapping yields a value equal to the
original in every field; and for each variant, when the timestamp is left to
its default factory, the defaulted timestamps of sequential constructions are
non-decreasing whenever the clock readings are (while distinct readings give
distinct, not identical, timestamps). -/
theorem message_roundtrip_and_default_timestamp :
    (∀ m : UserMessage, UserMessage.fromDict (UserMessage.toDict m) = some m) ∧
    (∀ m : AssistantMessage,
       AssistantMessage.fromDict (AssistantMessage.toDict m) = some m) ∧
    (∀ m : ToolCallMessage,
       ToolCallMessage.fromDict (ToolCallMessage.toDict m) = some m) ∧
    (∀ m : ToolResultMessage,
       ToolResultMessage.fromDict (ToolResultMessage.toDict m) = some m) ∧
    (∀ (now1 now2 : Nat) (c1 c2 : String), now1 ≤ now2 →
       (UserMessage.mkDefault now1 c1).timestamp ≤
         (UserMessage.mkDefault now2 c2).timestamp) ∧
    (∀ (now1 now2 : Nat) (c1 c2 mo1 mo2 : String), now1 ≤ now2 →
       (AssistantMessage.mkDefault now1 c1 mo1).timestamp ≤
         (AssistantMessage.mkDefault now2 c2 mo2).timestamp) ∧
    (∀ (now1 now2 : Nat) (tn1 tn2 : String) (a1 a2 : List (String × Val))
       (id1 id2 : String), now1 ≤ now2 →
       (ToolCallMessage.mkDefault now1 tn1 a1 id1).timestamp ≤
         (ToolCallMessage.mkDefault now2 tn2 a2 id2).timestamp) ∧
    (∀ (now1 now2 : Nat) (tn1 tn2 : String) (r1 r2 : Val) (id1 id2 : String),
       now1 ≤ now2 →
       (ToolResultMessage.mkDefault now1 tn1 r1 id1).timestamp ≤
         (ToolResultMessage.mkDefault now2 tn2 r2 id2).timestamp) := by
  refine ⟨fun m => rfl, fun m => ?_, fun m => rfl, fun m => rfl,
    fun _ _ _ _ h => h, fun _ _ _ _ _ _ h => h,
    fun _ _ _ _ _ _ _ _ h => h, fun _ _ _ _ _ _ _ _ h => h⟩
  simp [AssistantMessage.toDict, AssistantMessage.fromDict, List.lookup,
    decodeUsage_encode]

/-! ### Witnesses: the claim theorems evaluated at concrete inputs -/

/-- Witness for C1 at a response with one decodable and one undecodable
invocation. -/
theorem brain_complete_tool_calls_decode_witness :
    ∃ ptcs : List ParsedToolCall,
      (Brain.complete 3 1 true dWit (fun _ => .success rToolsWit)).2 =
        .ok { content := none
              tool_calls := some ptcs
              model := "m"
              usage := { prompt_tokens := 1, completion_tokens := 2,
                         total_tokens := 3 } } ∧
      ptcs.length = ([tcGoodWit, tcBadWit] : List ToolCallWire).length ∧
      ∀ (i : Nat) (hi : i < ([tcGoodWit, tcBadWit] : List ToolCallWire).length)
        (hi' : i < ptcs.length),
        (∀ e, dWit (([tcGoodWit, tcBadWit] : List ToolCallWire).get
            ⟨i, hi⟩).function.arguments = .error e →
           (ptcs.get ⟨i, hi'⟩).arguments = .vdict [] ∧
           ∃ s, (ptcs.get ⟨i, hi'⟩).error = some s ∧ s ≠ "") ∧
        (∀ v, dWit (([tcGoodWit, tcBadWit] : List ToolCallWire).get
            ⟨i, hi⟩).function.arguments = .ok v →
           (ptcs.get ⟨i, hi'⟩).arguments = v ∧
           (ptcs.get ⟨i, hi'⟩).error = none) :=
  brain_complete_tool_calls_decode 3 1 true dWit (fun _ => .success rToolsWit)
    rToolsWit choiceToolsWit [tcGoodWit, tcBadWit]
    (by decide) rfl rfl rfl (by decide)

/-- Witness for C2 at a stub failing twice then succeeding. -/
theorem brain_complete_retry_then_success_witness :
    (Brain.complete 3 1 true dWit apiRetryWit).2 = .ok resTextWit ∧
    apiCallCount (Brain.complete 3 1 true dWit apiRetryWit).1 = 2 + 1 ∧
    sleepDurations (Brain.complete 3 1 true dWit apiRetryWit).1 =
      (List.range 2).map (fun i : ℕ => (1 : ℚ) * ((i : ℚ) + 1)) :=
  brain_complete_retry_then_success 3 2 1 true dWit apiRetryWit rTextWit
    resTextWit (by decide)
    (fun i hi => by interval_cases i <;> decide) rfl rfl

/-- Witness for C3 at an always-rate-limited stub. -/
theorem brain_complete_exhausts_retries_witness :
    (Brain.complete 3 1 true dWit (fun _ => .rateLimitError "429")).2 =
      .error ("Max retries (" ++ toString (3 : Nat) ++
        ") exceeded. Last error: " ++ "429") ∧
    apiCallCount (Brain.complete 3 1 true dWit
      (fun _ => .rateLimitError "429")).1 = 3 ∧
    endGenCount (Brain.complete 3 1 true dWit
      (fun _ => .rateLimitError "429")).1 = (if true then 1 else 0) :=
  brain_complete_exhausts_retries 3 1 true dWit (fun _ => .rateLimitError "429")
    (fun _ => "429") (by decide) (fun _ _ => rfl)

/-- Witness for C4 at a stub raising a non-transient error. -/
theorem brain_complete_nontransient_immediate_witness :
    (Brain.complete 3 1 true dWit (fun _ => .otherError "boom")).2 =
      .error ("LLM call failed: " ++ "boom") ∧
    apiCallCount (Brain.complete 3 1 true dWit
      (fun _ => .otherError "boom")).1 = 1 ∧
    endGenCount (Brain.complete 3 1 true dWit
      (fun _ => .otherError "boom")).1 = (if true then 1 else 0) :=
  brain_complete_nontransient_immediate 3 1 true dWit
    (fun _ => .otherError "boom") "boom" (by decide) (Or.inl rfl)

/-- Witness for C5 at a text-only response. -/
theorem brain_complete_text_only_witness :
    (Brain.complete 3 1 true dWit (fun _ => .success rTextWit)).2 =
      .ok resTextWit :=
  brain_complete_text_only 3 1 true dWit (fun _ => .success rTextWit)
    rTextWit choiceTextWit (by decide) rfl rfl (Or.inl rfl)

/-- Witness for C6 at environments lacking the required variables. -/
theorem config_errors_at_first_use_witness :
    Brain.init none envEmpty "https://openrouter.ai/api/v1" 3 1 =
      .error "OPENROUTER_API_KEY not found. Set it in .env file or pass as argument." ∧
    init_langfuse_client envEmpty =
      .error "LANGFUSE_PUBLIC_KEY environment variable is required" ∧
    init_langfuse_client envPubOnly =
      .error "LANGFUSE_SECRET_KEY environment variable is required" ∧
    get_langfuse_client none envEmpty =
      (init_langfuse_client envEmpty).map (fun c => (c, some c)) :=
  ⟨config_errors_at_first_use.1 envEmpty none "https://openrouter.ai/api/v1" 3 1
     rfl rfl,
   config_errors_at_first_use.2.1 envEmpty rfl,
   config_errors_at_first_use.2.2.1 envPubOnly (by decide) rfl,
   config_errors_at_first_use.2.2.2.1 envEmpty⟩

/-- Witness for C7 (amended) at provided truthy arguments. -/
theorem call_kwargs_fields_witness :
    (build_call_kwargs "m" [] 1 (some 5) (some [Val.vstr "t"])).max_tokens
      = some 5 ∧
    (build_call_kwargs "m" [] 1 (some 5) (some [Val.vstr "t"])).tools
      = some [Val.vstr "t"] :=
  ⟨(call_kwargs_fields "m" [] 1 (some 5) (some [Val.vstr "t"])).2.2.2.2.1
     5 rfl (by decide),
   (call_kwargs_fields "m" [] 1 (some 5) (some [Val.vstr "t"])).2.2.2.2.2.2
     [Val.vstr "t"] rfl (by simp)⟩

/-- Witness for C8 (amended) at a text-only response. -/
theorem completion_result_exactly_one_populated_witness :
    ∃ res, parse_response dWit rTextWit = .ok res ∧
      res.content = choiceTextWit.message.content ∧
      ((contentPopulated res.content ∧ ¬ toolCallsPopulated res.tool_calls) ∨
       (toolCallsPopulated res.tool_calls ∧ ¬ contentPopulated res.content)) :=
  completion_result_exactly_one_populated dWit rTextWit choiceTextWit rfl
    (Or.inl ⟨⟨"ok", rfl, by decide⟩,
      by rintro ⟨l, hl, _⟩; exact Option.noConfusion hl⟩)

/-- Witness for C9 at concrete messages and clock readings. -/
theorem message_roundtrip_witness :
    UserMessage.fromDict (UserMessage.toDict
        { content := "hi", timestamp := 5 }) =
      some { content := "hi", timestamp := 5 } ∧
    AssistantMessage.fromDict (AssistantMessage.toDict
        { content := "yo", timestamp := 6, model := "m",
          usage := some [("prompt_tokens", 1)] }) =
      some { content := "yo", timestamp := 6, model := "m",
             usage := some [("prompt_tokens", 1)] } ∧
    (3 : Nat) ≤ 5 ∧
    (UserMessage.mkDefault 3 "a").timestamp ≤
      (UserMessage.mkDefault 5 "b").timestamp ∧
    (AssistantMessage.mkDefault 3 "a" "m").timestamp ≤
      (AssistantMessage.mkDefault 5 "b" "m").timestamp ∧
    (ToolCallMessage.mkDefault 3 "t" [] "i").timestamp ≤
      (ToolCallMessage.mkDefault 5 "t" [] "i").timestamp ∧
    (ToolResultMessage.mkDefault 3 "t" Val.vnone "i").timestamp ≤
      (ToolResultMessage.mkDefault 5 "t" Val.vnone "i").timestamp :=
  ⟨message_roundtrip_and_default_timestamp.1 _,
   message_roundtrip_and_default_timestamp.2.1 _,
   by decide,
   message_roundtrip_and_default_timestamp.2.2.2.2.1 3 5 "a" "b" (by decide),
   message_roundtrip_and_default_timestamp.2.2.2.2.2.1 3 5 "a" "b" "m" "m"
     (by decide),
   message_roundtrip_and_default_timestamp.2.2.2.2.2.2.1 3 5 "t" "t" [] [] "i" "i"
     (by decide),
   message_roundtrip_and_default_timestamp.2.2.2.2.2.2.2 3 5 "t" "t"
     Val.vnone Val.vnone "i" "i" (by decide)⟩

end AgnosticAgents
